import Mathlib

/-!
Verification of the customer-feedback sentiment app (`src/sentiment.py`).

The file shallowly embeds the two core components of the program —
the templated random review generator and the lexicon-based sentiment
scorer — together with the record-pairing and aggregation glue, and
proves the frozen claims about them.

Randomness is modelled by an explicit stream `s : Nat → ℚ` of draws in
[0, 1) together with a cursor `n : Nat`; `random.choice` consumes one
draw and turns it into an index into the (always concrete, non-empty)
pool, and `random.random()` consumes one draw and returns it.
-/

namespace Sentiment

/-! ## Sentiment scorer (`analyze_sentiment`, lines 152–160) -/

/-- Modelled from the spec: the VADER lexicon of `nltk` (loaded by
`SentimentIntensityAnalyzer`) is external to the repository; the spec
delegates the exact word valences to the lexicon implementation.  We
model it as a fixed finite association list from lowercase words to
rational valences; only its shape (fixed, read-only) matters for the
claims. -/
def vader_lexicon : List (String × ℚ) :=
  [("loved", 32/10), ("enjoyed", 2), ("appreciated", 2), ("valued", 18/10),
   ("adored", 26/10), ("excellent", 27/10), ("hated", -27/10),
   ("disliked", -16/10), ("disappointed", -23/10), ("frustrated", -24/10),
   ("amazing", 28/10), ("terrible", -21/10), ("fantastic", 26/10),
   ("poor", -2), ("disappointing", -22/10), ("satisfying", 19/10),
   ("mediocre", -1)]

/-- Model of Python's `str.lower()` for the ASCII strings this program
builds: lowercase every character. -/
def pyLower (s : String) : String := ⟨s.data.map Char.toLower⟩

/-- Modelled from the spec: tokenization inside `sia.polarity_scores` —
the text is lowercased and split into words at spaces. -/
def tokenize (text : String) : List String :=
  ((((pyLower text).data.splitOnP (fun c => c == ' ')).map
      (fun l => String.mk l)).filter (fun w => w ≠ ""))

/-- Modelled from the spec: the normalization that maps a raw valence sum
into the interval [-1, 1]; the exact formula is delegated by the spec, so
we use a rational squashing function with the properties the spec relies
on (sign-preserving, zero at zero, bounded by 1 in absolute value). -/
def vaderNormalize (x : ℚ) : ℚ := x / (|x| + 15)

/-- Modelled from the spec: `sia.polarity_scores(text)["compound"]` — the
compound score is 0.0 when no token of the text is in the lexicon, and
otherwise the normalized sum of the valences of the known tokens. -/
def polarity_compound (text : String) : ℚ :=
  let vals := (tokenize text).filterMap (fun w => vader_lexicon.lookup w)
  if vals = [] then 0 else vaderNormalize vals.sum

/-- Embedding of `analyze_sentiment` (src/sentiment.py lines 152–160):
threshold the compound score at ±0.05. -/
def analyze_sentiment (text : String) : String × ℚ :=
  let compound := polarity_compound text
  if compound ≥ 5/100 then ("Positive", compound)
  else if compound ≤ -(5/100) then ("Negative", compound)
  else ("Neutral", compound)

/-! ## Record pairing and aggregation (lines 162–169) -/

/-- Line 162: every review in the batch is paired with its sentiment
label and confidence score. -/
def label_batch (rs : List String) : List (String × String × ℚ) :=
  rs.map (fun r => (r, analyze_sentiment r))

/-- Line 166: `total = len(df)`. -/
def total (b : List (String × String × ℚ)) : Nat := b.length

/-- Line 167: `pos = (df["sentiment"] == "Positive").sum()`. -/
def pos (b : List (String × String × ℚ)) : Nat :=
  (b.filter (fun r => r.2.1 == "Positive")).length

/-- Line 168: `neg = (df["sentiment"] == "Negative").sum()`. -/
def neg (b : List (String × String × ℚ)) : Nat :=
  (b.filter (fun r => r.2.1 == "Negative")).length

/-- Line 169: `neu = (df["sentiment"] == "Neutral").sum()`. -/
def neu (b : List (String × String × ℚ)) : Nat :=
  (b.filter (fun r => r.2.1 == "Neutral")).length

lemma total_cons (x : String × String × ℚ) (b : List (String × String × ℚ)) :
    total (x :: b) = total b + 1 := rfl

lemma pos_cons (x : String × String × ℚ) (b : List (String × String × ℚ)) :
    pos (x :: b) = (if x.2.1 == "Positive" then 1 else 0) + pos b := by
  by_cases hx : x.2.1 == "Positive" <;>
    simp [pos, List.filter_cons, hx, Nat.add_comm]

lemma neg_cons (x : String × String × ℚ) (b : List (String × String × ℚ)) :
    neg (x :: b) = (if x.2.1 == "Negative" then 1 else 0) + neg b := by
  by_cases hx : x.2.1 == "Negative" <;>
    simp [neg, List.filter_cons, hx, Nat.add_comm]

lemma neu_cons (x : String × String × ℚ) (b : List (String × String × ℚ)) :
    neu (x :: b) = (if x.2.1 == "Neutral" then 1 else 0) + neu b := by
  by_cases hx : x.2.1 == "Neutral" <;>
    simp [neu, List.filter_cons, hx, Nat.add_comm]

/-! ## Vocabulary pools (lines 102–111) -/

def subjects : List String :=
  ["I", "We", "My friend", "The team", "Customer service", "The product",
   "The staff", "Our experience"]

def verbs_positive : List String :=
  ["loved", "enjoyed", "appreciated", "valued", "adored", "found excellent"]

def verbs_negative : List String :=
  ["hated", "disliked", "was disappointed by", "was frustrated by",
   "couldn\x27t enjoy"]

def verbs_neutral : List String :=
  ["experienced", "noticed", "found", "tried", "observed", "encountered"]

def objects_weather : List String :=
  ["the sunny day", "the rain", "stormy conditions", "the cold weather",
   "the heatwave"]

def objects_service : List String :=
  ["the staff", "the support team", "the customer service", "the assistance",
   "the guidance"]

def objects_feedback : List String :=
  ["the process", "the feedback system", "the form", "the survey",
   "the response"]

def objects_reviews : List String :=
  ["the review process", "the opinions shared", "the ratings", "the comments",
   "the evaluations"]

def adjectives : List String :=
  ["amazing", "terrible", "okay", "fantastic", "poor", "average", "excellent",
   "mediocre", "satisfying", "disappointing"]

def contexts : List String :=
  ["during a rainy afternoon", "on a sunny morning", "after a long wait",
   "before the storm", "while deciding", "after reviewing all options"]

/-! ## Randomness model

A pseudo-random source is an explicit stream `s : Nat → ℚ` of draws
(each intended in [0, 1)) read at an explicit cursor.  `random.choice l`
consumes one draw `q` and selects the element at index `⌊q·|l|⌋`; the
`% l.length` keeps the index in range for arbitrary streams and is the
identity for draws in [0, 1).  `random.random()` consumes and returns
one draw. -/

/-- One `random.choice` from a pool, driven by one draw. -/
def choose (l : List String) (q : ℚ) : String :=
  l.getD ((⌊q * (l.length : ℚ)⌋).toNat % l.length) ""

/-- Model of Python's `str.strip()` on the character list: drop leading
and trailing whitespace. -/
def stripList (l : List Char) : List Char :=
  ((l.dropWhile Char.isWhitespace).reverse.dropWhile Char.isWhitespace).reverse

/-- Model of Python's `str.strip()`. -/
def pyStrip (s : String) : String := ⟨stripList s.data⟩

/-- The five f-string templates of lines 129–135, already filled in with
the drawn subject, verb, object, adjective and context.  The second
template is the only one passed through `.strip()`. -/
def mkTemplates (subj verb obj adj context : String) : List String :=
  [subj ++ " " ++ verb ++ " " ++ obj ++ ". It was " ++ adj ++ " " ++ context ++ ".",
   pyStrip ("Overall, " ++ pyLower subj ++ " " ++ verb ++ " " ++ obj ++
     " and found it " ++ adj ++ ". " ++ context),
   subj ++ " felt that " ++ obj ++ " was " ++ adj ++ ". " ++ context,
   "In my opinion, " ++ obj ++ " was " ++ adj ++ " " ++ context ++ ". " ++
     subj ++ " " ++ verb ++ " it thoroughly.",
   subj ++ " would say the " ++ obj ++ " was " ++ adj ++ ". " ++ context ++ "."]

/-- Embedding of `generate_fluent_review` (lines 113–136).  Draws are
consumed in the source's evaluation order: subject, verb, object,
adjective, the `random.random()` gate for the context clause, the
context (only when the gate draw is < 0.6), and finally the template
choice.  Returns the sentence together with the advanced cursor. -/
def generate_fluent_review (theme_name : String) (s : Nat → ℚ) (n : Nat) :
    String × Nat :=
  let subj := choose subjects (s n)
  let vo :=
    if theme_name = "Weather" then
      (choose (verbs_positive ++ verbs_negative ++ verbs_neutral) (s (n+1)),
       choose objects_weather (s (n+2)))
    else if theme_name = "Service" then
      (choose (verbs_positive ++ verbs_negative ++ verbs_neutral) (s (n+1)),
       choose objects_service (s (n+2)))
    else if theme_name = "Feedback" then
      (choose (verbs_positive ++ verbs_negative ++ verbs_neutral) (s (n+1)),
       choose objects_feedback (s (n+2)))
    else
      (choose (verbs_positive ++ verbs_negative ++ verbs_neutral) (s (n+1)),
       choose objects_reviews (s (n+2)))
  let adj := choose adjectives (s (n+3))
  let cm : String × Nat :=
    if s (n+4) < 3/5 then (choose contexts (s (n+5)), n+6) else ("", n+5)
  (choose (mkTemplates subj vo.1 vo.2 adj cm.1) (s cm.2), cm.2 + 1)

/-- The object pool selected by the `if/elif/else` ladder of lines
115–126: unrecognized themes fall through to the Reviews pool. -/
def objPool (theme_name : String) : List String :=
  if theme_name = "Weather" then objects_weather
  else if theme_name = "Service" then objects_service
  else if theme_name = "Feedback" then objects_feedback
  else objects_reviews

/-- Normal form of the generator: the verb draw is the same in all four
branches of the ladder, so the branching reduces to the object pool. -/
lemma generate_eq (theme : String) (s : Nat → ℚ) (n : Nat) :
    generate_fluent_review theme s n =
      (choose (mkTemplates (choose subjects (s n))
          (choose (verbs_positive ++ verbs_negative ++ verbs_neutral) (s (n+1)))
          (choose (objPool theme) (s (n+2)))
          (choose adjectives (s (n+3)))
          (if s (n+4) < 3/5 then choose contexts (s (n+5)) else ""))
        (s (if s (n+4) < 3/5 then n+6 else n+5)),
       (if s (n+4) < 3/5 then n+6 else n+5) + 1) := by
  simp only [generate_fluent_review, objPool]
  split_ifs <;> rfl

/-- Auxiliary recursion for the list comprehension of line 140, with a
natural-number iteration count. -/
def reviewsN (theme : String) : Nat → (Nat → ℚ) → Nat → List String × Nat
  | 0, _, n => ([], n)
  | Nat.succ k, s, n =>
    let p := generate_fluent_review theme s n
    let rest := reviewsN theme k s p.2
    (p.1 :: rest.1, rest.2)

/-- Embedding of line 140,
`reviews = [generate_fluent_review(theme) for _ in range(num_reviews)]`.
Python's `range(count)` yields `max(count, 0)` iterations, which is
`Int.toNat`; in particular a zero or negative count yields an empty
list, not an error. -/
def reviews (theme : String) (count : ℤ) (s : Nat → ℚ) (n : Nat) :
    List String × Nat :=
  reviewsN theme count.toNat s n

/-- Modelled from the spec: the `st.slider` widget of line 100 is part
of the external presentation layer; it returns its default value (5)
when the user has not touched it, and otherwise clamps the user's
selection to the configured bounds [5, 20], always an integer. -/
def st_slider (minv maxv default : ℤ) (user : Option ℤ) : ℤ :=
  match user with
  | none => default
  | some u => max minv (min maxv u)

/-- Line 100: `num_reviews = st.slider("Number of reviews to generate", 5, 20, 5)`. -/
def num_reviews (user : Option ℤ) : ℤ := st_slider 5 20 5 user

lemma reviewsN_length (theme : String) (k : Nat) (s : Nat → ℚ) (n : Nat) :
    (reviewsN theme k s n).1.length = k := by
  induction k generalizing n with
  | zero => rfl
  | succ k ih => simp [reviewsN, ih]

lemma choose_mem (l : List String) (q : ℚ) (h : l ≠ []) : choose l q ∈ l := by
  have hlen : 0 < l.length := List.length_pos.mpr h
  have hidx : (⌊q * (l.length : ℚ)⌋).toNat % l.length < l.length :=
    Nat.mod_lt _ hlen
  rw [show choose l q = (l.get? _).getD "" from rfl, List.get?_eq_get hidx]
  exact List.get_mem l _ hidx

/-- The label returned by `analyze_sentiment` is always one of the three
recognized labels. -/
lemma analyze_label_trichotomy (text : String) :
    (analyze_sentiment text).1 = "Positive" ∨
    (analyze_sentiment text).1 = "Negative" ∨
    (analyze_sentiment text).1 = "Neutral" := by
  simp only [analyze_sentiment]
  split_ifs <;> simp

/-! ## Substring and strip reasoning -/

/-- `m` occurs contiguously inside `l`. -/
def substrOf (m l : List Char) : Prop := ∃ u v, u ++ m ++ v = l

lemma dropWhile_eq_self_of_head (p : Char → Bool) (l : List Char)
    (h : ∀ c, l.head? = some c → p c = false) : l.dropWhile p = l := by
  cases l with
  | nil => rfl
  | cons x xs => simp [List.dropWhile, h x rfl]

/-- A string whose first and last characters are not whitespace is left
unchanged by `strip`. -/
lemma stripList_eq_self (l : List Char) (a b : Char) (h1 : l.head? = some a)
    (ha : a.isWhitespace = false) (h2 : l.getLast? = some b)
    (hb : b.isWhitespace = false) : stripList l = l := by
  unfold stripList
  rw [dropWhile_eq_self_of_head _ l (by intro c hc; rw [h1] at hc; cases hc; exact ha)]
  rw [dropWhile_eq_self_of_head _ l.reverse
    (by intro c hc; rw [List.head?_reverse, h2] at hc; cases hc; exact hb)]
  exact List.reverse_reverse l

/-- Stripping a string that is a non-whitespace-delimited core followed
by one trailing space removes exactly that space. -/
lemma stripList_concat_space (l : List Char) (a b : Char) (h1 : l.head? = some a)
    (ha : a.isWhitespace = false) (h2 : l.getLast? = some b)
    (hb : b.isWhitespace = false) : stripList (l ++ [' ']) = l := by
  cases l with
  | nil => cases h1
  | cons x xs =>
    have hx : x = a := by
      rw [List.head?_cons] at h1
      cases h1
      rfl
    subst hx
    unfold stripList
    rw [List.cons_append,
      dropWhile_eq_self_of_head Char.isWhitespace (x :: (xs ++ [' ']))
        (by intro c hc; rw [List.head?_cons] at hc; cases hc; exact ha)]
    rw [show (x :: (xs ++ [' '])).reverse = ' ' :: (x :: xs).reverse by simp]
    rw [List.dropWhile_cons_of_pos (by decide : Char.isWhitespace ' ' = true)]
    rw [dropWhile_eq_self_of_head _ (x :: xs).reverse
      (by intro c hc; rw [List.head?_reverse, h2] at hc; cases hc; exact hb)]
    exact List.reverse_reverse _

/-- Every context clause in the pool ends in a non-whitespace character. -/
lemma contexts_last : ∀ c ∈ contexts, ∃ ys ch, c.data = ys ++ [ch] ∧
    ch.isWhitespace = false := by
  intro c hc
  fin_cases hc
  · exact ⟨"during a rainy afternoo".data, 'n', by decide, by decide⟩
  · exact ⟨"on a sunny mornin".data, 'g', by decide, by decide⟩
  · exact ⟨"after a long wai".data, 't', by decide, by decide⟩
  · exact ⟨"before the stor".data, 'm', by decide, by decide⟩
  · exact ⟨"while decidin".data, 'g', by decide, by decide⟩
  · exact ⟨"after reviewing all option".data, 's', by decide, by decide⟩

lemma mkTemplates_ne_nil (subj verb obj adj context : String) :
    mkTemplates subj verb obj adj context ≠ [] := by simp [mkTemplates]

lemma objPool_ne_nil (theme : String) : objPool theme ≠ [] := by
  unfold objPool
  split_ifs <;>
    simp [objects_weather, objects_service, objects_feedback, objects_reviews]

/-- Whatever the theme and the random draws, the generated sentence
contains the drawn object phrase — which belongs to the theme's object
pool — as a contiguous substring.  This holds for each of the five
template shapes, including the stripped second one. -/
lemma obj_substr (theme : String) (s : Nat → ℚ) (n : Nat) :
    ∃ o, o ∈ objPool theme ∧
      substrOf o.data ((generate_fluent_review theme s n).1).data := by
  rw [generate_eq]
  set subj := choose subjects (s n) with hsubj
  set verb := choose (verbs_positive ++ verbs_negative ++ verbs_neutral) (s (n+1)) with hverb
  set obj := choose (objPool theme) (s (n+2)) with hobj
  set adj := choose adjectives (s (n+3)) with hadj
  set ctx := if s (n+4) < 3/5 then choose contexts (s (n+5)) else "" with hctx
  set m := if s (n+4) < 3/5 then n+6 else n+5 with hm
  refine ⟨obj, choose_mem _ _ (objPool_ne_nil theme), ?_⟩
  dsimp only
  have hmem : choose (mkTemplates subj verb obj adj ctx) (s m)
      ∈ mkTemplates subj verb obj adj ctx :=
    choose_mem _ _ (mkTemplates_ne_nil _ _ _ _ _)
  set out := choose (mkTemplates subj verb obj adj ctx) (s m) with hout
  simp only [mkTemplates, List.mem_cons, List.not_mem_nil, or_false] at hmem
  rcases hmem with h | h | h | h | h <;> rw [h]
  -- template 1
  · exact ⟨(subj ++ " " ++ verb ++ " ").data,
      (". It was " ++ adj ++ " " ++ ctx ++ ".").data,
      by simp [String.data_append, List.append_assoc]⟩
  -- template 2, the stripped one
  · have hps : (pyStrip ("Overall, " ++ pyLower subj ++ " " ++ verb ++ " " ++
        obj ++ " and found it " ++ adj ++ ". " ++ ctx)).data
        = stripList ("Overall, " ++ pyLower subj ++ " " ++ verb ++ " " ++
          obj ++ " and found it " ++ adj ++ ". " ++ ctx).data := rfl
    rw [hps]
    by_cases hr : s (n+4) < 3/5
    · have hc : ctx = choose contexts (s (n+5)) := by rw [hctx, if_pos hr]
      have hcm : ctx ∈ contexts := by
        rw [hc]
        exact choose_mem _ _ (by simp [contexts])
      obtain ⟨ys, ch, hdec, hch⟩ := contexts_last ctx hcm
      have hhead : ("Overall, " ++ pyLower subj ++ " " ++ verb ++ " " ++
          obj ++ " and found it " ++ adj ++ ". " ++ ctx).data.head? = some 'O' := by
        simp [String.data_append, List.append_assoc]
      have hlast : ("Overall, " ++ pyLower subj ++ " " ++ verb ++ " " ++
          obj ++ " and found it " ++ adj ++ ". " ++ ctx).data.getLast? = some ch := by
        rw [String.data_append, hdec, ← List.append_assoc, List.getLast?_concat]
      rw [stripList_eq_self _ 'O' ch hhead (by decide) hlast hch]
      exact ⟨("Overall, " ++ pyLower subj ++ " " ++ verb ++ " ").data,
        (" and found it " ++ adj ++ ". " ++ ctx).data,
        by simp [String.data_append, List.append_assoc]⟩
    · have hc : ctx = "" := by rw [hctx, if_neg hr]
      rw [hc]
      have hshape : ("Overall, " ++ pyLower subj ++ " " ++ verb ++ " " ++
          obj ++ " and found it " ++ adj ++ ". " ++ "").data
          = (("Overall, " ++ pyLower subj ++ " " ++ verb ++ " " ++
              obj ++ " and found it " ++ adj).data ++ ['.']) ++ [' '] := by
        simp [String.data_append, List.append_assoc,
          show (". ").data = ['.', ' '] from rfl,
          show ("").data = ([] : List Char) from rfl]
      rw [hshape]
      have hhead : (("Overall, " ++ pyLower subj ++ " " ++ verb ++ " " ++
          obj ++ " and found it " ++ adj).data ++ ['.']).head? = some 'O' := by
        simp [String.data_append, List.append_assoc]
      rw [stripList_concat_space _ 'O' '.' hhead (by decide)
        (List.getLast?_concat _) (by decide)]
      exact ⟨("Overall, " ++ pyLower subj ++ " " ++ verb ++ " ").data,
        (" and found it " ++ adj).data ++ ['.'],
        by simp [String.data_append, List.append_assoc]⟩
  -- template 3
  · exact ⟨(subj ++ " felt that ").data,
      (" was " ++ adj ++ ". " ++ ctx).data,
      by simp [String.data_append, List.append_assoc]⟩
  -- template 4
  · exact ⟨("In my opinion, ").data,
      (" was " ++ adj ++ " " ++ ctx ++ ". " ++ subj ++ " " ++ verb ++
        " it thoroughly.").data,
      by simp [String.data_append, List.append_assoc]⟩
  -- template 5
  · exact ⟨(subj ++ " would say the ").data,
      (" was " ++ adj ++ ". " ++ ctx ++ ".").data,
      by simp [String.data_append, List.append_assoc]⟩

/-- A concrete example stream: every draw is 0 (selecting index 0 in
every pool) except the fifth (cursor 4), whose draw 1 makes the
`random.random() < 0.6` gate fail, so the context clause is omitted. -/
def exStream : Nat → ℚ := fun k => if k = 4 then 1 else 0

end Sentiment

open Sentiment

/-- C1: for every input text, the label returned by `analyze_sentiment`
is exactly determined by its compound score: Positive iff the score is
≥ 0.05, Negative iff the score is ≤ -0.05, and Neutral otherwise (so a
score of exactly 0.05 is Positive and exactly -0.05 is Negative). -/
theorem C1_label_determined_by_thresholds (text : String) :
    ((analyze_sentiment text).1 = "Positive" ↔ (analyze_sentiment text).2 ≥ 5/100) ∧
    ((analyze_sentiment text).1 = "Negative" ↔ (analyze_sentiment text).2 ≤ -(5/100)) ∧
    ((analyze_sentiment text).1 = "Neutral" ↔
      ¬ (analyze_sentiment text).2 ≥ 5/100 ∧ ¬ (analyze_sentiment text).2 ≤ -(5/100)) := by
  simp only [analyze_sentiment]
  set c := polarity_compound text with hc
  by_cases h1 : c ≥ 5/100
  · have h2 : ¬ c ≤ -(5/100) := by linarith
    simp [h1, h2]
  · by_cases h2 : c ≤ -(5/100)
    · simp [h1, h2]
    · simp [h1, h2]

/-- C5: scoring the empty string, and more generally any text none of
whose tokens is in the lexicon, yields compound score exactly 0 and the
label Neutral. -/
theorem C5_unknown_text_neutral_zero (text : String)
    (h : ∀ w ∈ tokenize text, vader_lexicon.lookup w = none) :
    analyze_sentiment text = ("Neutral", 0) := by
  have hmt : (tokenize text).filterMap (fun w => vader_lexicon.lookup w) = [] := by
    rw [List.filterMap_eq_nil_iff]
    intro w hw
    exact h w hw
  simp only [analyze_sentiment, polarity_compound]
  rw [hmt]
  norm_num

/-- C5 witness: the empty string has no tokens, so it scores 0 and is
labeled Neutral. -/
theorem C5_witness :
    (∀ w ∈ tokenize "", vader_lexicon.lookup w = none) ∧
    analyze_sentiment "" = ("Neutral", 0) := by
  have h : ∀ w ∈ tokenize "", vader_lexicon.lookup w = none := by decide
  exact ⟨h, C5_unknown_text_neutral_zero "" h⟩

/-- C6: the scorer is deterministic — two applications of
`analyze_sentiment` to the same text return the identical label and the
identical score (the embedding is a pure function of the text alone;
the source reads no mutable state and uses no randomness in this
component). -/
theorem C6_scorer_deterministic (text : String) :
    (analyze_sentiment text).1 = (analyze_sentiment text).1 ∧
    (analyze_sentiment text).2 = (analyze_sentiment text).2 :=
  ⟨rfl, rfl⟩

/-- C7: for every batch of labeled records produced by the scorer, the
per-label counts sum exactly to the total, which equals the length of
the batch. -/
theorem C7_counts_sum_to_total (rs : List String) :
    pos (label_batch rs) + neu (label_batch rs) + neg (label_batch rs)
      = total (label_batch rs) ∧
    total (label_batch rs) = rs.length := by
  constructor
  · induction rs with
    | nil => rfl
    | cons r rs ih =>
      have hbatch : label_batch (r :: rs) = (r, analyze_sentiment r) :: label_batch rs := rfl
      rw [hbatch, pos_cons, neg_cons, neu_cons, total_cons]
      rcases analyze_label_trichotomy r with h | h | h <;> simp [h] <;> omega
  · simp [total, label_batch]

/-- C2: for every positive count and every theme, one generation action
produces exactly `count` review strings, and pairing each review with
its sentiment (line 162) yields a batch with exactly `count` entries. -/
theorem C2_exact_count (theme : String) (count : ℤ) (s : Nat → ℚ) (n : Nat)
    (h : 0 < count) :
    ((reviews theme count s n).1.length : ℤ) = count ∧
    (label_batch (reviews theme count s n).1).length
      = (reviews theme count s n).1.length := by
  have hlen : (reviews theme count s n).1.length = count.toNat :=
    reviewsN_length theme count.toNat s n
  refine ⟨?_, by simp [label_batch]⟩
  rw [hlen]
  omega

/-- C2 witness: five Weather reviews on the example stream. -/
theorem C2_witness :
    (0 : ℤ) < 5 ∧
    (((reviews "Weather" 5 exStream 0).1.length : ℤ) = 5 ∧
     (label_batch (reviews "Weather" 5 exStream 0).1).length
       = (reviews "Weather" 5 exStream 0).1.length) :=
  ⟨by norm_num, C2_exact_count "Weather" 5 exStream 0 (by norm_num)⟩

/-- C4 counterexample: requesting zero (or -3) reviews does not signal
any error condition — the list comprehension over `range(count)` simply
runs zero times and returns the empty list, and the program continues
normally. -/
theorem C4_counterexample :
    reviews "Weather" 0 exStream 0 = ([], 0) ∧
    reviews "Weather" (-3) exStream 0 = ([], 0) :=
  ⟨rfl, rfl⟩

/-- C4 amended: a zero or negative count produces an empty review list
without signaling anything (Python `range` semantics), and a positive
count `c` produces exactly `c` reviews; no count ever raises. -/
theorem C4_amended_range_semantics (count : ℤ) (theme : String)
    (s : Nat → ℚ) (n : Nat) :
    (reviews theme count s n).1.length = count.toNat ∧
    (count ≤ 0 → (reviews theme count s n).1 = []) := by
  refine ⟨reviewsN_length theme count.toNat s n, fun hc => ?_⟩
  have h0 : count.toNat = 0 := by omega
  rw [show (reviews theme count s n).1 = (reviewsN theme count.toNat s n).1 from rfl, h0]
  rfl

/-- C4 witness: the amended statement at count -3. -/
theorem C4_witness :
    ((-3 : ℤ) ≤ 0) ∧ (reviews "Weather" (-3) exStream 0).1 = [] :=
  ⟨by norm_num,
   (C4_amended_range_semantics (-3) "Weather" exStream 0).2 (by norm_num)⟩

/-- C10: whatever the user does to the slider, the requested review
count is always an integer between 5 and 20 inclusive, hence positive,
so within this program the generation action is always invoked with a
positive count and yields that many reviews. -/
theorem C10_slider_bounds (user : Option ℤ) (theme : String) (s : Nat → ℚ)
    (n : Nat) :
    5 ≤ num_reviews user ∧ num_reviews user ≤ 20 ∧ 0 < num_reviews user ∧
    ((reviews theme (num_reviews user) s n).1.length : ℤ) = num_reviews user := by
  have hb : 5 ≤ num_reviews user ∧ num_reviews user ≤ 20 := by
    cases user with
    | none => exact ⟨by norm_num [num_reviews, st_slider],
        by norm_num [num_reviews, st_slider]⟩
    | some u =>
      constructor <;> simp [num_reviews, st_slider]
  have hpos : 0 < num_reviews user := by omega
  refine ⟨hb.1, hb.2, hpos, ?_⟩
  have := reviewsN_length theme (num_reviews user).toNat s n
  rw [show (reviews theme (num_reviews user) s n).1
      = (reviewsN theme (num_reviews user).toNat s n).1 from rfl, this]
  omega

/-- C9: for every recognized theme, the generated sentence contains, as
a contiguous substring, an object phrase drawn from that theme's object
pool, so the chosen theme is always reflected in the output text. -/
theorem C9_theme_reflected_in_text (theme : String) (s : Nat → ℚ) (n : Nat) :
    (theme = "Weather" → ∃ o ∈ objects_weather,
      substrOf o.data ((generate_fluent_review theme s n).1).data) ∧
    (theme = "Service" → ∃ o ∈ objects_service,
      substrOf o.data ((generate_fluent_review theme s n).1).data) ∧
    (theme = "Feedback" → ∃ o ∈ objects_feedback,
      substrOf o.data ((generate_fluent_review theme s n).1).data) ∧
    (theme = "Reviews" → ∃ o ∈ objects_reviews,
      substrOf o.data ((generate_fluent_review theme s n).1).data) := by
  refine ⟨fun ht => ?_, fun ht => ?_, fun ht => ?_, fun ht => ?_⟩ <;> subst ht
  · have h := obj_substr "Weather" s n
    rwa [show objPool "Weather" = objects_weather by simp [objPool]] at h
  · have h := obj_substr "Service" s n
    rwa [show objPool "Service" = objects_service by simp [objPool]] at h
  · have h := obj_substr "Feedback" s n
    rwa [show objPool "Feedback" = objects_feedback by simp [objPool]] at h
  · have h := obj_substr "Reviews" s n
    rwa [show objPool "Reviews" = objects_reviews by simp [objPool]] at h

/-- C9 witness: a Weather review on the example stream contains a
weather object phrase. -/
theorem C9_witness :
    ∃ o ∈ objects_weather,
      substrOf o.data ((generate_fluent_review "Weather" exStream 0).1).data :=
  (C9_theme_reflected_in_text "Weather" exStream 0).1 rfl

/-- C8: an unrecognized theme does not fail — the generator behaves
exactly as with the default "Reviews" theme, and the generated sentence
contains an object phrase from the Reviews object pool. -/
theorem C8_unrecognized_theme_falls_back (theme : String) (s : Nat → ℚ)
    (n : Nat) (h1 : theme ≠ "Weather") (h2 : theme ≠ "Service")
    (h3 : theme ≠ "Feedback") :
    generate_fluent_review theme s n = generate_fluent_review "Reviews" s n ∧
    ∃ o ∈ objects_reviews,
      substrOf o.data ((generate_fluent_review theme s n).1).data := by
  have hpool : objPool theme = objects_reviews := by simp [objPool, h1, h2, h3]
  constructor
  · rw [generate_eq theme s n, generate_eq "Reviews" s n, hpool,
      show objPool "Reviews" = objects_reviews by simp [objPool]]
  · have h := obj_substr theme s n
    rwa [hpool] at h

/-- C8 witness: the unknown theme "Bogus" generates exactly what the
"Reviews" theme generates on the same draws. -/
theorem C8_witness :
    (("Bogus" : String) ≠ "Weather" ∧ ("Bogus" : String) ≠ "Service" ∧
      ("Bogus" : String) ≠ "Feedback") ∧
    (generate_fluent_review "Bogus" exStream 0
        = generate_fluent_review "Reviews" exStream 0 ∧
     ∃ o ∈ objects_reviews,
       substrOf o.data ((generate_fluent_review "Bogus" exStream 0).1).data) :=
  ⟨⟨by decide, by decide, by decide⟩,
   C8_unrecognized_theme_falls_back "Bogus" exStream 0 (by decide) (by decide)
     (by decide)⟩

/-- C3 counterexample: on the example stream the context clause is
omitted (the gate draw is 1 ≥ 0.6), the first template shape is chosen,
and the generated sentence is "I loved the sunny day. It was amazing ."
— it ends with a space-before-period artifact, because the whitespace
cleanup (`.strip()`) is applied only to the second template shape. -/
theorem C3_counterexample :
    (¬ exStream 4 < 3/5) ∧
    (generate_fluent_review "Weather" exStream 0).1
      = "I loved the sunny day. It was amazing ." ∧
    ("I loved the sunny day. It was amazing .").data
      = "I loved the sunny day. It was amazing".data ++ [' ', '.'] := by
  refine ⟨by norm_num [exStream], ?_, by decide⟩
  have h35 : ¬ ((1 : ℚ) < 3/5) := by norm_num
  simp [generate_fluent_review, choose, exStream, subjects, verbs_positive,
    verbs_negative, verbs_neutral, objects_weather, adjectives, contexts,
    mkTemplates, h35]

/-- C3 amended: when the optional context clause is omitted, only the
second template shape is cleaned up (it always ends in a period with no
trailing whitespace); the first and fifth shapes always end with a
space-before-period, the third always ends with a dangling trailing
space, and the fourth always contains a space-before-period artifact. -/
theorem C3_amended_only_second_template_cleaned (theme : String)
    (s : Nat → ℚ) (n : Nat) (hr : ¬ s (n+4) < 3/5) :
    ((⌊s (n+5) * (5:ℚ)⌋.toNat % 5 = 0) → ∃ l,
      ((generate_fluent_review theme s n).1).data = l ++ [' ', '.']) ∧
    ((⌊s (n+5) * (5:ℚ)⌋.toNat % 5 = 1) → ∃ l,
      ((generate_fluent_review theme s n).1).data = l ++ ['.']) ∧
    ((⌊s (n+5) * (5:ℚ)⌋.toNat % 5 = 2) → ∃ l,
      ((generate_fluent_review theme s n).1).data = l ++ [' ']) ∧
    ((⌊s (n+5) * (5:ℚ)⌋.toNat % 5 = 3) → ∃ u v,
      u ++ [' ', '.'] ++ v = ((generate_fluent_review theme s n).1).data) ∧
    ((⌊s (n+5) * (5:ℚ)⌋.toNat % 5 = 4) → ∃ l,
      ((generate_fluent_review theme s n).1).data = l ++ [' ', '.']) := by
  rw [generate_eq]
  dsimp only
  rw [if_neg hr, if_neg hr]
  set subj := choose subjects (s n) with hsubj
  set verb := choose (verbs_positive ++ verbs_negative ++ verbs_neutral) (s (n+1)) with hverb
  set obj := choose (objPool theme) (s (n+2)) with hobj
  set adj := choose adjectives (s (n+3)) with hadj
  have hc : choose (mkTemplates subj verb obj adj "") (s (n+5))
      = (mkTemplates subj verb obj adj "").getD
          (⌊s (n+5) * (5:ℚ)⌋.toNat % 5) "" := by
    unfold choose
    rw [show (mkTemplates subj verb obj adj "").length = 5 from rfl]
    norm_cast
  rw [hc]
  refine ⟨fun hi => ?_, fun hi => ?_, fun hi => ?_, fun hi => ?_, fun hi => ?_⟩ <;>
    rw [hi] <;>
    simp only [mkTemplates, List.getD_cons_zero, List.getD_cons_succ]
  -- template 1: `{subj} {verb} {obj}. It was {adj} .`
  · exact ⟨(subj ++ " " ++ verb ++ " " ++ obj ++ ". It was " ++ adj).data,
      by simp [String.data_append, List.append_assoc]⟩
  -- template 2, the stripped one: ends in a period
  · refine ⟨("Overall, " ++ pyLower subj ++ " " ++ verb ++ " " ++ obj ++
      " and found it " ++ adj).data, ?_⟩
    rw [show (pyStrip ("Overall, " ++ pyLower subj ++ " " ++ verb ++ " " ++
        obj ++ " and found it " ++ adj ++ ". " ++ "")).data
        = stripList ("Overall, " ++ pyLower subj ++ " " ++ verb ++ " " ++
          obj ++ " and found it " ++ adj ++ ". " ++ "").data from rfl]
    have hshape : ("Overall, " ++ pyLower subj ++ " " ++ verb ++ " " ++
        obj ++ " and found it " ++ adj ++ ". " ++ "").data
        = (("Overall, " ++ pyLower subj ++ " " ++ verb ++ " " ++
            obj ++ " and found it " ++ adj).data ++ ['.']) ++ [' '] := by
      simp [String.data_append, List.append_assoc]
    have hhead : (("Overall, " ++ pyLower subj ++ " " ++ verb ++ " " ++
        obj ++ " and found it " ++ adj).data ++ ['.']).head? = some 'O' := by
      simp [String.data_append, List.append_assoc]
    rw [hshape, stripList_concat_space _ 'O' '.' hhead (by decide)
      (List.getLast?_concat _) (by decide)]
  -- template 3: `{subj} felt that {obj} was {adj}. ` ends with a space
  · exact ⟨(subj ++ " felt that " ++ obj ++ " was " ++ adj).data ++ ['.'],
      by simp [String.data_append, List.append_assoc]⟩
  -- template 4: `In my opinion, {obj} was {adj} . {subj} ...`
  · exact ⟨("In my opinion, " ++ obj ++ " was " ++ adj).data,
      (" " ++ subj ++ " " ++ verb ++ " it thoroughly.").data,
      by simp [String.data_append, List.append_assoc]⟩
  -- template 5: `{subj} would say the {obj} was {adj}. .`
  · exact ⟨(subj ++ " would say the " ++ obj ++ " was " ++ adj).data ++ ['.'],
      by simp [String.data_append, List.append_assoc]⟩

/-- C3 witness: the amended statement on the example stream (context
omitted, template index 0). -/
theorem C3_witness :
    (¬ exStream 4 < 3/5) ∧
    (((⌊exStream 5 * (5:ℚ)⌋.toNat % 5 = 0) → ∃ l,
       ((generate_fluent_review "Weather" exStream 0).1).data = l ++ [' ', '.']) ∧
     ((⌊exStream 5 * (5:ℚ)⌋.toNat % 5 = 1) → ∃ l,
       ((generate_fluent_review "Weather" exStream 0).1).data = l ++ ['.']) ∧
     ((⌊exStream 5 * (5:ℚ)⌋.toNat % 5 = 2) → ∃ l,
       ((generate_fluent_review "Weather" exStream 0).1).data = l ++ [' ']) ∧
     ((⌊exStream 5 * (5:ℚ)⌋.toNat % 5 = 3) → ∃ u v,
       u ++ [' ', '.'] ++ v = ((generate_fluent_review "Weather" exStream 0).1).data) ∧
     ((⌊exStream 5 * (5:ℚ)⌋.toNat % 5 = 4) → ∃ l,
       ((generate_fluent_review "Weather" exStream 0).1).data = l ++ [' ', '.'])) :=
  ⟨by norm_num [exStream],
   C3_amended_only_second_template_cleaned "Weather" exStream 0
     (by norm_num [exStream])⟩
